import Mathlib

/-!
Verification of the CheckinSignage AirPlay supervisor
(`src/airplay/server.py` and `src/bin/airplay_native.py`).

The Python modules are shallowly embedded below: the log-line state
classifier of `AirPlayServer._monitor_output`, the command listener of
`AirPlayServer._start_command_listener`, `AirPlayServer.stop`,
`AirPlayServer._build_command`, `AirPlayServer._publish_state`,
`NativeAirPlayServer._publish_state`, and the retry loop of `main`.
Effectful statements (signals, spawns, publishes, sleeps) are modelled as
abstract actions accumulated in program order; inputs coming from the
environment (the child's exit behaviour, the resolution probe's outcome)
are passed as explicit parameters.
-/

namespace CheckinSignage

/-! ## Character-list helpers used by the regex embedding -/

/-- `charsPrefix p s` holds when the character list `p` is an initial
segment of `s`. -/
def charsPrefix : List Char → List Char → Bool
  | [], _ => true
  | _ :: _, [] => false
  | a :: as, b :: bs => a = b && charsPrefix as bs

/-- `containsSub pat s`: the literal `pat` occurs somewhere in `s`.
This is `re.search` of a literal pattern. -/
def containsSub (pat s : List Char) : Bool :=
  (List.range (s.length + 1)).any (fun i => charsPrefix pat (s.drop i))

/-- The regex wildcard `.`: any character except a newline. -/
def dotChar (c : Char) : Bool := c ≠ '\n'

/-- A span matched by `.*` or `.+`: every character passes `dotChar`. -/
def dotSpan (l : List Char) : Bool := l.all dotChar

/-! ## The classifier patterns of `AirPlayServer._monitor_output`

`connect_pattern = re.compile(r'Connection from .* \((.+)\)')`
`stream_start_pattern = re.compile(r'Starting video stream')`
`stream_stop_pattern = re.compile(r'Video stream stopped|Connection closed')`
-/

/-- Greedy tail of the connect regex after the literal `" ("`: the group
`(.+)` takes the longest span of dot-characters followed by `')'`, at
least one character long.  Returns the index of the closing paren. -/
def parenGroupEnd (tail : List Char) : Option Nat :=
  (List.range tail.length).reverse.find? (fun k =>
    tail.getD k ' ' = ')' && decide (1 ≤ k) && dotSpan (tail.take k))

/-- Match of `.* \((.+)\)` against `rest` (the part of the line after the
literal `"Connection from "`).  `.*` is greedy with backtracking: the
largest split point `j` whose prefix is a dot-span, followed by the
literal `" ("` and a nonempty group closed by `')'`, wins.  Returns the
captured group. -/
def connectTailMatch (rest : List Char) : Option (List Char) :=
  match (List.range (rest.length + 1)).reverse.find? (fun j =>
      dotSpan (rest.take j) && charsPrefix [' ', '('] (rest.drop j)
        && (parenGroupEnd (rest.drop (j + 2))).isSome) with
  | some j => (parenGroupEnd (rest.drop (j + 2))).map
      (fun k => (rest.drop (j + 2)).take k)
  | none => none

/-- The literal head of the connect pattern. -/
def connectLit : List Char := "Connection from ".data

/-- `re.search` of `r'Connection from .* \((.+)\)'` in a line: the
leftmost start position at which the whole pattern matches wins; returns
group 1. -/
def connectSearch (line : List Char) : Option (List Char) :=
  match (List.range (line.length + 1)).find? (fun i =>
      charsPrefix connectLit (line.drop i)
        && (connectTailMatch (line.drop (i + connectLit.length))).isSome) with
  | some i => connectTailMatch (line.drop (i + connectLit.length))
  | none => none

/-- `re.search` of `r'Starting video stream'`. -/
def streamStartMatch (line : List Char) : Bool :=
  containsSub "Starting video stream".data line

/-- `re.search` of `r'Video stream stopped|Connection closed'`. -/
def streamStopMatch (line : List Char) : Bool :=
  containsSub "Video stream stopped".data line
    || containsSub "Connection closed".data line

/-! ## Session states and events -/

/-- The three session states (`STATE_IDLE`, `STATE_CONNECTED`,
`STATE_STREAMING`). -/
inductive SessionState where
  | idle
  | connected
  | streaming
deriving DecidableEq, Repr

/-- One call to `_publish_state(state, client_name)`. -/
structure SessionEvent where
  state : SessionState
  client : Option String
deriving DecidableEq, Repr

/-! ## `AirPlayServer._monitor_output`, per-line body

The loop reads a line, strips it, and tests the three patterns in order
with first match winning (`continue` after connect and after start).
`_publish_state` records its `client_name` argument in
`self.client_name`; connect publishes the captured group, start
publishes the recorded `self.client_name` unchanged, and stop publishes
`None`, clearing it. -/

/-- Process one stripped line given the currently recorded
`self.client_name`; returns the event published (if any) and the new
recorded client name. -/
def monitorStep (clientName : Option String) (line : String) :
    Option SessionEvent × Option String :=
  match connectSearch line.data with
  | some cap =>
    let c := String.mk cap
    (some ⟨.connected, some c⟩, some c)
  | none =>
    if streamStartMatch line.data then
      (some ⟨.streaming, clientName⟩, clientName)
    else if streamStopMatch line.data then
      (some ⟨.idle, none⟩, none)
    else
      (none, clientName)

/-- The events published by `_monitor_output` over a sequence of
stripped lines, starting from recorded client name `clientName`. -/
def monitorOutput (clientName : Option String) : List String → List SessionEvent
  | [] => []
  | line :: rest =>
    match monitorStep clientName line with
    | (some e, c) => e :: monitorOutput c rest
    | (none, c) => monitorOutput c rest

/-! ## The per-line classifier as the spec states it (§4.2, §8)

A second formulation, following the spec's words: each line is
classified independently, in priority order connect > start > stop; the
recorded identity is set by connect, carried unchanged by start,
cleared by stop, and untouched by unmatched lines. -/

/-- Spec formulation: the identity recorded after one line. -/
def identityAfter (identity : Option String) (line : String) : Option String :=
  match connectSearch line.data with
  | some cap => some (String.mk cap)
  | none =>
    if streamStartMatch line.data then identity
    else if streamStopMatch line.data then none
    else identity

/-- Spec formulation: the event a single line emits, independently of
the others (first match wins, connect before start before stop; an
unmatched line emits no event). -/
def classifiedEvent (identity : Option String) (line : String) :
    Option SessionEvent :=
  match connectSearch line.data with
  | some cap => some ⟨.connected, some (String.mk cap)⟩
  | none =>
    if streamStartMatch line.data then some ⟨.streaming, identity⟩
    else if streamStopMatch line.data then some ⟨.idle, none⟩
    else none

/-- Spec formulation: per-line classification applied independently in
order, threading the recorded identity per the carried/cleared rules. -/
def classifierSpec (identity : Option String) : List String → List SessionEvent
  | [] => []
  | line :: rest =>
    (classifiedEvent identity line).toList
      ++ classifierSpec (identityAfter identity line) rest

/-! ## Abstract actions

Side effects of the supervisor, recorded in program order. -/

/-- One observable effect of the supervisor code. -/
inductive Action where
  /-- `os.killpg(os.getpgid(pid), signal.SIGTERM)` delivered. -/
  | sigtermGroup
  /-- `os.killpg(os.getpgid(pid), signal.SIGKILL)` delivered. -/
  | sigkillGroup
  /-- `self.process.wait(timeout=n)`: wait up to `n` seconds. -/
  | waitGrace (n : Nat)
  /-- `self._publish_state(state, client)`. -/
  | publish (state : SessionState) (client : Option String)
  /-- `self._load_settings_from_redis()`. -/
  | loadSettings
  /-- `subprocess.Popen(cmd, ...)`. -/
  | spawn (cmd : List String)
  /-- `sleep(n)` in the retry loop. -/
  | sleepRetry (n : Nat)
deriving DecidableEq, Repr

/-- Number of Idle events in a list of actions. -/
def countIdle (as : List Action) : Nat :=
  as.countP (fun a =>
    match a with
    | .publish .idle _ => true
    | _ => false)

/-! ## `AirPlayServer._start_command_listener`, message handling

For each pubsub message the listener logs the command; only
`cmd == 'restart'` has an effect: `self._load_settings_from_redis()`,
`self.restart_requested = True`, `self.stop()`.  Every other command
falls through with no effect.  (The class has no `enabled` flag.) -/

/-- The listener-visible control state: the only flag the listener
writes is `restart_requested`. -/
structure ListenerFlags where
  restartRequested : Bool
deriving DecidableEq, Repr

/-- Effects the command handler can request. -/
inductive ListenerEffect where
  /-- `self._load_settings_from_redis()`. -/
  | loadSettings
  /-- `self.stop()`. -/
  | stopServer
deriving DecidableEq, Repr

/-- Handling of one command string by the listener body. -/
def handleCommand (flags : ListenerFlags) (cmd : String) :
    ListenerFlags × List ListenerEffect :=
  if cmd = "restart" then
    ({ restartRequested := true }, [.loadSettings, .stopServer])
  else
    (flags, [])

/-! ## `AirPlayServer.stop` (identical control flow in
`NativeAirPlayServer.stop`)

```
if not self.running or not self.process: return
self.running = False
try:
    os.killpg(os.getpgid(self.process.pid), signal.SIGTERM)
    self.process.wait(timeout=5)
except subprocess.TimeoutExpired:
    os.killpg(os.getpgid(self.process.pid), signal.SIGKILL)
except ProcessLookupError:
    pass
self._publish_state(STATE_IDLE)
```
-/

/-- The supervisor state bits `stop` reads and writes. -/
structure ServerFlags where
  running : Bool
  hasProcess : Bool
deriving DecidableEq, Repr

/-- Environment outcome of the termination attempt: the child exits
within the 5-second grace wait, the wait times out, or the process
group is already gone (`os.killpg` raises `ProcessLookupError`). -/
inductive StopOutcome where
  | exitedWithinGrace
  | graceTimeout
  | alreadyGone
deriving DecidableEq, Repr

/-- `AirPlayServer.stop`: returns the new state and the actions
performed, in order. -/
def stopServer (s : ServerFlags) (outcome : StopOutcome) :
    ServerFlags × List Action :=
  if !s.running || !s.hasProcess then
    (s, [])
  else
    let body : List Action :=
      match outcome with
      | .exitedWithinGrace => [.sigtermGroup, .waitGrace 5]
      | .graceTimeout => [.sigtermGroup, .waitGrace 5, .sigkillGroup]
      | .alreadyGone => []
    ({ s with running := false }, body ++ [.publish .idle none])

/-! ## `AirPlayServer._build_command` and the resolution probe

```
resolution = self.resolution if self.resolution else self._detect_display_resolution()
width, height = resolution.split('x')
```
`_detect_display_resolution` runs a best-effort probe chain and falls
back to `'1920x1080'`; its outcome is passed in as a parameter
(`none` = every probe failed). -/

/-- The configuration fields `_build_command` reads. -/
structure Config where
  device_name : String
  audio_output : String
  resolution : String
  framerate : String
deriving DecidableEq, Repr

/-- `_detect_display_resolution`: the probe result if any probe
succeeded, else the hard-coded final fallback `'1920x1080'`. -/
def detectDisplayResolution (probed : Option String) : String :=
  probed.getD "1920x1080"

/-- Python's `str.split(sep)` for a one-character separator: splits on
every occurrence, yielding `count + 1` parts. -/
def splitOnChar (c : Char) : List Char → List (List Char)
  | [] => [[]]
  | a :: as =>
    match splitOnChar c as with
    | [] => [[]]
    | g :: gs => if a = c then [] :: g :: gs else (a :: g) :: gs

/-- `AirPlayServer._build_command`.  `none` models the `ValueError`
raised by unpacking `resolution.split('x')` into `width, height` when
the split does not yield exactly two parts. -/
def build_command (cfg : Config) (probed : Option String) :
    Option (List String) :=
  let resolution :=
    if cfg.resolution = "" then detectDisplayResolution probed
    else cfg.resolution
  match splitOnChar 'x' resolution.data with
  | [width, height] =>
    let w := String.mk width
    let h := String.mk height
    some (["uxplay",
           "-n", cfg.device_name,
           "-nh",
           "-s", w ++ "x" ++ h ++ "@" ++ cfg.framerate,
           "-fps", cfg.framerate,
           "-vsync", "no",
           "-avdec",
           "-vs", "kmssink",
           "-fs",
           "-reset", "0"]
      ++ (if cfg.audio_output = "hdmi" then
            ["-as", "alsasink device=hw:0,0"]
          else if cfg.audio_output = "headphones" then
            ["-as", "alsasink device=hw:1,0"]
          else
            ["-as", "alsasink"]))
  | _ => none

/-- The launch prefix of `AirPlayServer.start`: `_build_command` is
called before `subprocess.Popen`, so a malformed resolution raises
before any process is spawned. -/
inductive LaunchStep where
  | spawned (cmd : List String)
  | raisedBeforeSpawn
deriving DecidableEq, Repr

/-- What `start()` does up to the spawn point. -/
def startLaunch (cfg : Config) (probed : Option String) : LaunchStep :=
  match build_command cfg probed with
  | some cmd => .spawned cmd
  | none => .raisedBeforeSpawn

/-! ## `AirPlayServer._publish_state` and
`NativeAirPlayServer._publish_state` -/

/-- The JSON message `AirPlayServer._publish_state` sends over both ZMQ
sockets. -/
structure ZmqMessage where
  type : String
  state : String
  client_name : Option String
deriving DecidableEq, Repr

/-- `AirPlayServer._publish_state`: builds
`{'type': 'airplay_state', 'state': state, 'client_name': client_name}`. -/
def publish_state (state : String) (client_name : Option String) :
    ZmqMessage :=
  { type := "airplay_state", state := state, client_name := client_name }

/-- The two Redis keys `NativeAirPlayServer._publish_state` touches. -/
structure KVStore where
  airplay_state : Option String
  airplay_client : Option String
deriving DecidableEq, Repr

/-- Python truthiness of the optional `client_name` argument. -/
def truthy : Option String → Bool
  | none => false
  | some s => !(s = "")

/-- `NativeAirPlayServer._publish_state`: `set('airplay_state', state)`;
`set('airplay_client', client_name)` if truthy else
`delete('airplay_client')`. -/
def publish_state_native (_kv : KVStore) (state : String)
    (client_name : Option String) : KVStore :=
  { airplay_state := some state
    airplay_client := if truthy client_name then client_name else none }

/-! ## The retry loop of `main`

```
while True:
    try:
        server.start()
        if server.restart_requested:
            server.restart_requested = False
            continue
    except Exception as e:
        logger.error(...)
    sleep(5)
```
-/

/-- How one `server.start()` call ends, as seen by the loop. -/
inductive StartResult where
  /-- `start()` returned (the child exited, naturally or via `stop()`). -/
  | returned
  /-- `start()` raised (launch failure or other error). -/
  | raised
deriving DecidableEq, Repr

/-- One iteration of the `while True` loop: given the
`restart_requested` flag and the way `start()` ended, returns the flag
after the iteration and the backoff sleep performed (`none` when the
`continue` skips it). -/
def loopIter (restartRequested : Bool) (r : StartResult) :
    Bool × Option Nat :=
  match r with
  | .returned =>
    if restartRequested then (false, none) else (restartRequested, some 5)
  | .raised => (restartRequested, some 5)

/-- Running the loop over a sequence of `start()` outcomes: the list of
per-iteration backoff sleeps.  The loop body has no exit path, so the
trace has exactly one entry per outcome. -/
def loopTrace (restartRequested : Bool) : List StartResult → List (Option Nat)
  | [] => []
  | r :: rs =>
    let (flag, slept) := loopIter restartRequested r
    slept :: loopTrace flag rs

/-! ## Teardown trace for a `restart` command

While `start()` is blocked in `self.process.wait()`, the listener
thread runs `stop()` (which waits for the process to die and publishes
one Idle event); `start()` then returns through its `finally` block,
which publishes another Idle event (`self._publish_state(STATE_IDLE)`
at the end of `start`). -/

/-- The actions of `start()`'s return path: the `finally` block. -/
def startReturnActions : List Action := [.publish .idle none]

/-- All actions of tearing one running process down via `stop()`:
`stop()`'s own actions followed by `start()`'s `finally` block. -/
def teardownActions (s : ServerFlags) (outcome : StopOutcome) : List Action :=
  (stopServer s outcome).2 ++ startReturnActions

/-- The spawn prefix of a fresh `start()` call: build the command,
spawn, publish Idle (`start` lines 251-270). -/
def startSpawnActions (cfg : Config) (probed : Option String) : List Action :=
  match build_command cfg probed with
  | some cmd => [.spawn cmd, .publish .idle none]
  | none => []

/-! ## Helper lemmas -/

/-- `splitOnChar` never returns the empty list. -/
theorem splitOnChar_ne_nil (c : Char) (l : List Char) :
    splitOnChar c l ≠ [] := by
  cases l with
  | nil => simp [splitOnChar]
  | cons a as =>
    simp only [splitOnChar]
    cases h : splitOnChar c as with
    | nil => simp
    | cons g gs =>
      by_cases hc : a = c <;> simp [hc]

/-- Splitting on a one-character separator yields `count + 1` parts,
exactly as Python's `str.split`. -/
theorem splitOnChar_length (c : Char) (l : List Char) :
    (splitOnChar c l).length = l.count c + 1 := by
  induction l with
  | nil => rfl
  | cons a as ih =>
    simp only [splitOnChar]
    cases h : splitOnChar c as with
    | nil => exact absurd h (splitOnChar_ne_nil c as)
    | cons g gs =>
      rw [h] at ih
      by_cases hc : a = c
      · simp [hc, List.count_cons, ih]
      · simp only [if_neg hc, List.length_cons, List.count_cons]
        simp only [List.length_cons] at ih
        simp [hc, ih]

/-! ## Claim theorems -/

/-- C1: the event sequence emitted by `_monitor_output` over any
sequence of log lines equals the per-line classification applied
independently in order — connect emits `(Connected, captured identity)`,
stream-start emits `(Streaming, last recorded identity)`, stream-stop
emits `(Idle, None)` and clears the identity, patterns tested connect
before start before stop with first match winning, unmatched lines
emitting nothing; and the three example lines yield exactly
`[(Connected, alice), (Streaming, alice), (Idle, None)]`. -/
theorem c1_classifier_sequence :
    (∀ (clientName : Option String) (lines : List String),
        monitorOutput clientName lines = classifierSpec clientName lines)
    ∧ monitorOutput none
        ["Connection from X (alice)", "Starting video stream",
         "Connection closed"]
      = [⟨.connected, some "alice"⟩, ⟨.streaming, some "alice"⟩,
         ⟨.idle, none⟩] := by
  constructor
  · intro clientName lines
    induction lines generalizing clientName with
    | nil => rfl
    | cons line rest ih =>
      simp only [monitorOutput, classifierSpec, monitorStep,
        classifiedEvent, identityAfter]
      cases h : connectSearch line.data with
      | some cap => simp [ih]
      | none =>
        by_cases hs : streamStartMatch line.data
        · simp [hs, ih]
        · by_cases ht : streamStopMatch line.data <;> simp [hs, ht, ih]
  · decide

/-- C2 counterexample: a `stop` command on the command channel neither
changes any control flag nor invokes `stop()` — the handler acts only
on `restart` — and a `start` command is likewise without effect. -/
theorem c2_stop_command_ignored :
    handleCommand ⟨false⟩ "stop" = (⟨false⟩, [])
    ∧ ListenerEffect.stopServer ∉ (handleCommand ⟨false⟩ "stop").2
    ∧ handleCommand ⟨false⟩ "start" = (⟨false⟩, []) := by
  decide

/-- C2 (amended): only the `restart` command has an effect — it
re-reads settings, sets `restart_requested`, and invokes `stop()`;
every other command, `stop` and `start` included, is logged and
ignored with no change to the control state. -/
theorem c2_only_restart_handled (flags : ListenerFlags) (cmd : String)
    (h : cmd ≠ "restart") :
    handleCommand flags cmd = (flags, [])
    ∧ handleCommand flags "restart"
      = (⟨true⟩, [.loadSettings, .stopServer]) := by
  refine ⟨?_, rfl⟩
  simp [handleCommand, h]

/-- C2 witness: instantiation at the `stop` command. -/
theorem c2_only_restart_handled_witness :
    handleCommand ⟨false⟩ "stop" = (⟨false⟩, [])
    ∧ handleCommand ⟨false⟩ "restart"
      = (⟨true⟩, [.loadSettings, .stopServer]) :=
  c2_only_restart_handled ⟨false⟩ "stop" (by decide)

/-- C4: a call to `stop()` while a process is running sends `SIGTERM`
to the whole process group, waits up to the fixed 5-second grace
period, escalates to `SIGKILL` on the group if the grace period
elapses, treats a process-already-gone condition as success, and in
every case publishes exactly one Idle event and leaves the server
stopped. -/
theorem c4_stop_behavior (s : ServerFlags) (outcome : StopOutcome)
    (hr : s.running = true) (hp : s.hasProcess = true) :
    (stopServer s .exitedWithinGrace).2
      = [.sigtermGroup, .waitGrace 5, .publish .idle none]
    ∧ (stopServer s .graceTimeout).2
      = [.sigtermGroup, .waitGrace 5, .sigkillGroup, .publish .idle none]
    ∧ (stopServer s .alreadyGone).2 = [.publish .idle none]
    ∧ countIdle (stopServer s outcome).2 = 1
    ∧ (stopServer s outcome).1.running = false := by
  cases outcome <;> simp [stopServer, hr, hp, countIdle]

/-- C4 witness: instantiation at a running server with a grace-period
timeout. -/
theorem c4_stop_behavior_witness :
    (stopServer ⟨true, true⟩ .exitedWithinGrace).2
      = [.sigtermGroup, .waitGrace 5, .publish .idle none]
    ∧ (stopServer ⟨true, true⟩ .graceTimeout).2
      = [.sigtermGroup, .waitGrace 5, .sigkillGroup, .publish .idle none]
    ∧ (stopServer ⟨true, true⟩ .alreadyGone).2 = [.publish .idle none]
    ∧ countIdle (stopServer ⟨true, true⟩ .graceTimeout).2 = 1
    ∧ (stopServer ⟨true, true⟩ .graceTimeout).1.running = false :=
  c4_stop_behavior ⟨true, true⟩ .graceTimeout rfl rfl

/-- C6: `stop()` is idempotent — after one completed call the flag
`running` is false, so an immediately following second call returns
without publishing any event or raising, and the two calls together
publish exactly one Idle event. -/
theorem c6_stop_idempotent (s : ServerFlags) (o1 o2 : StopOutcome)
    (hr : s.running = true) (hp : s.hasProcess = true) :
    stopServer (stopServer s o1).1 o2 = ((stopServer s o1).1, [])
    ∧ countIdle ((stopServer s o1).2
        ++ (stopServer (stopServer s o1).1 o2).2) = 1 := by
  cases o1 <;> cases o2 <;> simp [stopServer, hr, hp, countIdle]

/-- C6 witness: two consecutive `stop()` calls on a running server. -/
theorem c6_stop_idempotent_witness :
    stopServer (stopServer ⟨true, true⟩ .exitedWithinGrace).1
        .exitedWithinGrace
      = ((stopServer ⟨true, true⟩ .exitedWithinGrace).1, [])
    ∧ countIdle ((stopServer ⟨true, true⟩ .exitedWithinGrace).2
        ++ (stopServer (stopServer ⟨true, true⟩ .exitedWithinGrace).1
            .exitedWithinGrace).2) = 1 :=
  c6_stop_idempotent ⟨true, true⟩ .exitedWithinGrace .exitedWithinGrace
    rfl rfl

/-- C5 counterexample: tearing a running process down via `stop()`
publishes two Idle events, not one — `stop()` publishes one and
`start()`'s `finally` block publishes another. -/
theorem c5_teardown_two_idle :
    ¬ countIdle (teardownActions ⟨true, true⟩ .exitedWithinGrace) = 1 := by
  decide

/-- C5 (amended): on a `restart` command while a process is running,
settings are re-read and `restart_requested` is set and `stop()` is
invoked; the teardown publishes exactly two Idle events (one from
`stop()`, one from `start()`'s cleanup); the loop then clears the flag
and skips the 5-second backoff sleep; and the next iteration spawns
the command built from the refreshed settings. -/
theorem c5_restart_semantics (s : ServerFlags) (flags : ListenerFlags)
    (outcome : StopOutcome) (cfg : Config) (probed : Option String)
    (hr : s.running = true) (hp : s.hasProcess = true)
    (hb : (build_command cfg probed).isSome = true) :
    handleCommand flags "restart"
      = (⟨true⟩, [.loadSettings, .stopServer])
    ∧ countIdle (teardownActions s outcome) = 2
    ∧ loopIter true .returned = (false, none)
    ∧ ∃ cmd, build_command cfg probed = some cmd
        ∧ startSpawnActions cfg probed = [.spawn cmd, .publish .idle none] := by
  refine ⟨rfl, ?_, rfl, ?_⟩
  · cases outcome <;>
      simp [teardownActions, stopServer, hr, hp, startReturnActions, countIdle]
  · cases hcmd : build_command cfg probed with
    | some cmd => exact ⟨cmd, rfl, by simp [startSpawnActions, hcmd]⟩
    | none => rw [hcmd] at hb; exact absurd hb (by simp)

/-- C5 witness: a running server, a restart with the child exiting
within the grace period, and a concrete refreshed configuration. -/
theorem c5_restart_semantics_witness :
    (build_command ⟨"Foo", "hdmi", "1920x1080", "30"⟩ none).isSome = true
    ∧ (handleCommand ⟨false⟩ "restart"
        = (⟨true⟩, [.loadSettings, .stopServer])
      ∧ countIdle (teardownActions ⟨true, true⟩ .exitedWithinGrace) = 2
      ∧ loopIter true .returned = (false, none)
      ∧ ∃ cmd, build_command ⟨"Foo", "hdmi", "1920x1080", "30"⟩ none = some cmd
          ∧ startSpawnActions ⟨"Foo", "hdmi", "1920x1080", "30"⟩ none
            = [.spawn cmd, .publish .idle none]) :=
  ⟨by decide,
   c5_restart_semantics ⟨true, true⟩ ⟨false⟩ .exitedWithinGrace
     ⟨"Foo", "hdmi", "1920x1080", "30"⟩ none rfl rfl (by decide)⟩

/-- C7: whenever `start()` ends without a pending restart request —
whether it returned after an unexpected child exit or raised a launch
failure — the loop sleeps the fixed 5 time units before the next
attempt; the delay is identical for every cause, and over any sequence
of failing attempts, however long, the loop performs one attempt and
one 5-unit sleep per failure and never terminates. -/
theorem c7_backoff_uniform (r : StartResult) (n : Nat)
    (outcomes : List StartResult)
    (hfail : ∀ o ∈ outcomes, o = StartResult.raised) :
    (loopIter false r).2 = some 5
    ∧ loopTrace false outcomes = List.replicate outcomes.length (some 5)
    ∧ (loopTrace false (List.replicate n .raised)).length = n := by
  refine ⟨?_, ?_, ?_⟩
  · cases r <;> rfl
  · induction outcomes with
    | nil => rfl
    | cons o os ih =>
      have ho := hfail o (by simp)
      subst ho
      simp only [loopTrace, loopIter, List.length_cons, List.replicate]
      exact congrArg _ (ih (fun o hm => hfail o (by simp [hm])))
  · induction n with
    | zero => rfl
    | succ k ih => simpa [List.replicate, loopTrace, loopIter] using ih

/-- C7 witness: a raised launch failure and three consecutive
failures. -/
theorem c7_backoff_uniform_witness :
    (loopIter false .raised).2 = some 5
    ∧ loopTrace false [.raised, .raised, .raised]
      = List.replicate ([StartResult.raised, .raised, .raised]).length
          (some 5)
    ∧ (loopTrace false (List.replicate 3 .raised)).length = 3 :=
  c7_backoff_uniform .raised 3 [.raised, .raised, .raised] (by decide)

/-- For a non-empty configured resolution, `_build_command` fails (the
`width, height` unpacking raises) exactly when the resolution string
does not contain exactly one `'x'`. -/
theorem build_command_isNone_iff (cfg : Config) (probed : Option String)
    (hne : cfg.resolution ≠ "") :
    (build_command cfg probed).isNone
      ↔ ¬ cfg.resolution.data.count 'x' = 1 := by
  have hlen := splitOnChar_length 'x' cfg.resolution.data
  simp only [build_command, if_neg hne]
  rcases hparts : splitOnChar 'x' cfg.resolution.data
    with _ | ⟨a, _ | ⟨b, _ | ⟨c, rest⟩⟩⟩ <;>
    rw [hparts] at hlen <;> simp at hlen ⊢ <;> omega

/-- C8: with `{deviceName="Foo", resolution="", audioOutput="headphones",
frameRate="30"}` the built arguments carry `-n Foo`, the `-nh`
no-hostname flag, a resolution taken from the probe (fallback
`1920x1080`), frame rate `30`, and the headphones sink; a non-empty
resolution setting bypasses the probe entirely, an empty one delegates
to it, and an unrecognized audio output yields the generic sink with no
device qualifier. -/
theorem c8_build_command :
    (∀ (w h : List Char) (probed : Option String),
        splitOnChar 'x' (detectDisplayResolution probed).data = [w, h] →
        build_command ⟨"Foo", "headphones", "", "30"⟩ probed
          = some ["uxplay", "-n", "Foo", "-nh",
                  "-s", String.mk w ++ "x" ++ String.mk h ++ "@" ++ "30",
                  "-fps", "30", "-vsync", "no", "-avdec", "-vs", "kmssink",
                  "-fs", "-reset", "0", "-as", "alsasink device=hw:1,0"])
    ∧ build_command ⟨"Foo", "headphones", "", "30"⟩ none
        = some ["uxplay", "-n", "Foo", "-nh", "-s", "1920x1080@30",
                "-fps", "30", "-vsync", "no", "-avdec", "-vs", "kmssink",
                "-fs", "-reset", "0", "-as", "alsasink device=hw:1,0"]
    ∧ (∀ (cfg : Config) (probed other : Option String),
        cfg.resolution ≠ "" →
        build_command cfg probed = build_command cfg other)
    ∧ (∀ (cfg : Config) (probed : Option String),
        cfg.resolution = "" →
        build_command cfg probed
          = build_command
              { cfg with resolution := detectDisplayResolution probed }
              probed)
    ∧ (∀ (cfg : Config) (probed : Option String) (cmd : List String),
        cfg.audio_output ≠ "hdmi" → cfg.audio_output ≠ "headphones" →
        build_command cfg probed = some cmd →
        ["-as", "alsasink"] <:+ cmd) := by
  refine ⟨?_, by decide, ?_, ?_, ?_⟩
  · intro w h probed hs
    simp [build_command, hs]
  · intro cfg probed other hne
    simp [build_command, hne]
  · intro cfg probed h0
    by_cases hd : detectDisplayResolution probed = "" <;>
      simp [build_command, h0, hd]
  · intro cfg probed cmd h1 h2 hb
    simp only [build_command, h1, h2, if_neg, if_false] at hb
    rcases hparts : splitOnChar 'x'
        (if cfg.resolution = "" then detectDisplayResolution probed
         else cfg.resolution).data
      with _ | ⟨a, _ | ⟨b, _ | ⟨c, rest⟩⟩⟩ <;>
      rw [hparts] at hb <;> simp [h1, h2] at hb
    exact hb ▸ ⟨["uxplay", "-n", cfg.device_name, "-nh",
      "-s", String.mk a ++ "x" ++ String.mk b ++ "@" ++ cfg.framerate,
      "-fps", cfg.framerate, "-vsync", "no", "-avdec", "-vs", "kmssink",
      "-fs", "-reset", "0"], rfl⟩

/-- C8 witness: probe failure (`none`) with the fallback resolution. -/
theorem c8_build_command_witness :
    splitOnChar 'x' (detectDisplayResolution none).data
      = ["1920".data, "1080".data]
    ∧ build_command ⟨"Foo", "headphones", "", "30"⟩ none
      = some ["uxplay", "-n", "Foo", "-nh",
              "-s", String.mk "1920".data ++ "x" ++ String.mk "1080".data
                ++ "@" ++ "30",
              "-fps", "30", "-vsync", "no", "-avdec", "-vs", "kmssink",
              "-fs", "-reset", "0", "-as", "alsasink device=hw:1,0"] :=
  ⟨by decide, c8_build_command.1 "1920".data "1080".data none (by decide)⟩

/-- C9 counterexample: the published event's `type` field is
`'airplay_state'`, not `"state"` as the claim says. -/
theorem c9_event_type_mismatch :
    (publish_state "idle" none).type ≠ "state"
    ∧ (publish_state "connected" (some "alice")).type = "airplay_state" := by
  decide

/-- C9 (amended): every transition is published as
`{type: 'airplay_state', state: state, client_name: optional}`, and the
key/value transport writes the state under the `airplay_state` key and
the client under the `airplay_client` key, deleting the client key when
the transition carries no (or an empty) client identity. -/
theorem c9_publish_shape (state : String) (client : Option String)
    (kv : KVStore) :
    publish_state state client = ⟨"airplay_state", state, client⟩
    ∧ (publish_state_native kv state client).airplay_state = some state
    ∧ (publish_state_native kv state none).airplay_client = none
    ∧ (∀ s : String, s ≠ "" →
        (publish_state_native kv state (some s)).airplay_client = some s) := by
  refine ⟨rfl, rfl, rfl, ?_⟩
  intro s hs
  simp [publish_state_native, truthy, hs]

/-- C9 witness: a `connected` transition carrying the identity
`alice`. -/
theorem c9_publish_shape_witness :
    publish_state "connected" (some "alice")
      = ⟨"airplay_state", "connected", some "alice"⟩
    ∧ (publish_state_native ⟨none, none⟩ "connected"
        (some "alice")).airplay_client = some "alice" :=
  ⟨(c9_publish_shape "connected" (some "alice") ⟨none, none⟩).1,
   (c9_publish_shape "connected" (some "alice") ⟨none, none⟩).2.2.2
     "alice" (by decide)⟩

/-- C10: for a non-empty configured resolution, `start()` raises before
any process is spawned exactly when the value does not contain exactly
one `'x'` — `"1080p"` and `"1920x1080x60"` both abort before the spawn,
while any single-`'x'` WIDTHxHEIGHT value reaches the spawn. -/
theorem c10_resolution_precondition (cfg : Config) (probed : Option String)
    (hne : cfg.resolution ≠ "") :
    ((build_command cfg probed).isNone
      ↔ ¬ cfg.resolution.data.count 'x' = 1)
    ∧ (cfg.resolution.data.count 'x' = 1 →
        ∃ cmd, startLaunch cfg probed = .spawned cmd)
    ∧ startLaunch ⟨"Foo", "hdmi", "1080p", "30"⟩ none = .raisedBeforeSpawn
    ∧ startLaunch ⟨"Foo", "hdmi", "1920x1080x60", "30"⟩ none
      = .raisedBeforeSpawn := by
  have hiff := build_command_isNone_iff cfg probed hne
  refine ⟨hiff, ?_, by decide, by decide⟩
  intro hc
  cases hb : build_command cfg probed with
  | some cmd => exact ⟨cmd, by simp [startLaunch, hb]⟩
  | none =>
    have : (build_command cfg probed).isNone := by simp [hb]
    exact absurd (hiff.mp this) (by simp [hc])

/-- C10 witness: the well-formed resolution `800x600`. -/
theorem c10_resolution_precondition_witness :
    ((build_command ⟨"Checkin Cast", "hdmi", "800x600", "30"⟩ none).isNone
      ↔ ¬ ("800x600".data.count 'x' = 1))
    ∧ (("800x600".data.count 'x' = 1) →
        ∃ cmd, startLaunch ⟨"Checkin Cast", "hdmi", "800x600", "30"⟩ none
          = .spawned cmd)
    ∧ startLaunch ⟨"Foo", "hdmi", "1080p", "30"⟩ none = .raisedBeforeSpawn
    ∧ startLaunch ⟨"Foo", "hdmi", "1920x1080x60", "30"⟩ none
      = .raisedBeforeSpawn :=
  c10_resolution_precondition ⟨"Checkin Cast", "hdmi", "800x600", "30"⟩
    none (by decide)

end CheckinSignage
